import Mathlib

/-!
Shallow embedding of the Student Management API (src/main.py).

The service is a FastAPI app whose state lives in a Supabase (table-oriented)
data store with three tables: `students`, `courses`, `enrollments`.  We model
the store as lists of rows plus the store-assigned identity counters, and each
HTTP handler as a pure function from a store (and its inputs) to a result and
the successor store.  Supabase `select ... .eq(f, v)` becomes `List.filter`
with a boolean equality test, `insert` appends the row (ids assigned from the
counter), `delete ... .eq` filters matching rows out, and `update ... .eq`
maps over the rows.  `raise HTTPException(status_code, detail)` becomes
`Except.error` carrying the same status code and detail string.  Python floats
(grades) are modelled as exact rationals; `round(x, 2)` is modelled as exact
round-half-to-even at two decimal places.
-/

/-- A student row: `{id, name, email}` (id is store-assigned). -/
structure Student where
  id : Int
  name : String
  email : String
deriving DecidableEq, Repr

/-- A course row: `{id, name, instructor, prerequisites}`. -/
structure Course where
  id : Int
  name : String
  instructor : String
  prerequisites : List String
deriving DecidableEq, Repr

/-- An enrollment row: `{student_id, course_id, grade}`; grade is nullable. -/
structure Enrollment where
  student_id : Int
  course_id : Int
  grade : Option ℚ
deriving DecidableEq, Repr

/-- The data store: the three tables plus the identity counters the store
uses to assign `id` on insert. -/
structure Store where
  students : List Student
  courses : List Course
  enrollments : List Enrollment
  nextStudentId : Int
  nextCourseId : Int
deriving DecidableEq, Repr

/-- `raise HTTPException(status_code=..., detail=...)`. -/
structure HTTPException where
  status_code : Nat
  detail : String
deriving DecidableEq, Repr

/-- The fresh store backing a new deployment: empty tables, serial ids from 1. -/
def initialStore : Store :=
  { students := [], courses := [], enrollments := [],
    nextStudentId := 1, nextCourseId := 1 }

/-- `POST /students/` (`create_student` in src/main.py, lines 43-52):
check for a duplicate email with `select.eq("email", ...)`, 400 if any row
matches, otherwise insert and return the inserted row. -/
def create_student (s : Store) (name email : String) :
    Except HTTPException Student × Store :=
  let existing := s.students.filter (fun st => st.email == email)
  if existing.isEmpty then
    let newStudent : Student := ⟨s.nextStudentId, name, email⟩
    (.ok newStudent,
     { s with students := s.students ++ [newStudent],
              nextStudentId := s.nextStudentId + 1 })
  else
    (.error ⟨400, "Email already exists"⟩, s)

/-- `GET /students/` (`get_students`): all student rows. -/
def get_students (s : Store) : List Student :=
  s.students

/-- `DELETE /students/{student_id}` (`delete_student`, lines 60-67): delete
enrollments with matching `student_id`, then the student row; always return
the confirmation message. -/
def delete_student (s : Store) (student_id : Int) : String × Store :=
  let s1 := { s with
    enrollments := s.enrollments.filter (fun e => !(e.student_id == student_id)) }
  let s2 := { s1 with
    students := s1.students.filter (fun st => !(st.id == student_id)) }
  ("Student deleted", s2)

/-- `POST /courses/` (`create_course`): unconditional insert. -/
def create_course (s : Store) (name instructor : String)
    (prerequisites : List String) : Course × Store :=
  let newCourse : Course := ⟨s.nextCourseId, name, instructor, prerequisites⟩
  (newCourse,
   { s with courses := s.courses ++ [newCourse],
            nextCourseId := s.nextCourseId + 1 })

/-- `GET /courses/` (`get_courses`): all course rows. -/
def get_courses (s : Store) : List Course :=
  s.courses

/-- `DELETE /courses/{course_id}` (`delete_course`, lines 80-87): delete
enrollments with matching `course_id`, then the course row. -/
def delete_course (s : Store) (course_id : Int) : String × Store :=
  let s1 := { s with
    enrollments := s.enrollments.filter (fun e => !(e.course_id == course_id)) }
  let s2 := { s1 with
    courses := s1.courses.filter (fun c => !(c.id == course_id)) }
  ("Course deleted", s2)

/-- `POST /enrollments/` (`create_enrollment`, lines 90-111): select the
student and the course by id; 404 "Student not found" if the student select is
empty, then 404 "Course not found" if the course select is empty; then select
enrollments matching both keys and 400 if any row exists; otherwise insert. -/
def create_enrollment (s : Store) (student_id course_id : Int)
    (grade : Option ℚ) : Except HTTPException Enrollment × Store :=
  let student := s.students.filter (fun st => st.id == student_id)
  let course := s.courses.filter (fun c => c.id == course_id)
  if student.isEmpty then
    (.error ⟨404, "Student not found"⟩, s)
  else if course.isEmpty then
    (.error ⟨404, "Course not found"⟩, s)
  else
    let existing := s.enrollments.filter
      (fun e => e.student_id == student_id && e.course_id == course_id)
    if existing.isEmpty then
      let newEnrollment : Enrollment := ⟨student_id, course_id, grade⟩
      (.ok newEnrollment,
       { s with enrollments := s.enrollments ++ [newEnrollment] })
    else
      (.error ⟨400, "Student already enrolled in this course"⟩, s)

/-- `GET /enrollments/` (`get_enrollments`, lines 113-127): both query
parameters are `Optional[int] = None` and each filter is added only under
Python truthiness (`if student_id:`), so `None` AND `0` both skip the
corresponding `.eq` filter. -/
def get_enrollments (s : Store) (student_id course_id : Option Int) :
    List Enrollment :=
  let query := s.enrollments
  let query :=
    match student_id with
    | some v => if v != 0 then query.filter (fun e => e.student_id == v) else query
    | none => query
  let query :=
    match course_id with
    | some v => if v != 0 then query.filter (fun e => e.course_id == v) else query
    | none => query
  query

/-- The row transformation performed by the Supabase
`update({"grade": grade}).eq("student_id", ...).eq("course_id", ...)` call:
rows matching both keys get the new grade, all other rows are untouched. -/
def applyGrade (student_id course_id : Int) (grade : ℚ) (e : Enrollment) :
    Enrollment :=
  if e.student_id == student_id && e.course_id == course_id then
    { e with grade := some grade }
  else
    e

/-- `PUT /enrollments/` (`update_grade`, lines 129-149): select the enrollment
for the pair, 404 if the select is empty; otherwise update the grade of the
matching rows and return the first updated row (`result.data[0]`; `head?`
models the Python subscript, whose failure would be an unhandled 500). -/
def update_grade (s : Store) (student_id course_id : Int) (grade : ℚ) :
    Except HTTPException Enrollment × Store :=
  let existing := s.enrollments.filter
    (fun e => e.student_id == student_id && e.course_id == course_id)
  if existing.isEmpty then
    (.error ⟨404, "Enrollment not found"⟩, s)
  else
    let updated := s.enrollments.map (applyGrade student_id course_id grade)
    let result := updated.filter
      (fun e => e.student_id == student_id && e.course_id == course_id)
    match result.head? with
    | some r => (.ok r, { s with enrollments := updated })
    | none => (.error ⟨500, "Internal Server Error"⟩,
               { s with enrollments := updated })

/-- `DELETE /enrollments/` (`delete_enrollment`, lines 151-162): delete the
rows matching both keys; always return the confirmation message. -/
def delete_enrollment (s : Store) (student_id course_id : Int) :
    String × Store :=
  let remaining := s.enrollments.filter
    (fun e => !(e.student_id == student_id && e.course_id == course_id))
  ("Enrollment deleted", { s with enrollments := remaining })

/-- Result of the GPA endpoint: Python returns `{"gpa": ..., "message": ...}`
on the sentinel path and `{"gpa": ...}` otherwise; the absent key is `none`. -/
structure GpaResult where
  gpa : ℚ
  message : Option String
deriving DecidableEq, Repr

/-- Round-half-to-even to an integer, the tie rule of Python `round`. -/
def roundHalfEven (q : ℚ) : ℤ :=
  let f := q.floor
  let frac := q - (f : ℚ)
  if frac < 1 / 2 then f
  else if 1 / 2 < frac then f + 1
  else if f % 2 = 0 then f else f + 1

/-- Python `round(x, 2)` on the exact-rational model of float grades. -/
def pyRound2 (q : ℚ) : ℚ :=
  ((roundHalfEven (q * 100) : ℤ) : ℚ) / 100

/-- `GET /students/{student_id}/gpa` (`calculate_gpa`, lines 165-177): select
enrollments with matching `student_id` and non-null grade
(`.not_.is_("grade", None)`); if the select is empty return the sentinel
`{gpa: 0.0, message: "No grades found"}`; otherwise return the mean of the
selected grades rounded to two decimal places. -/
def calculate_gpa (s : Store) (student_id : Int) : GpaResult :=
  let enrollments := s.enrollments.filter
    (fun e => e.student_id == student_id && e.grade.isSome)
  if enrollments.isEmpty then
    { gpa := 0, message := some "No grades found" }
  else
    let total_points := (enrollments.map (fun e => e.grade.getD 0)).sum
    let gpa := total_points / (enrollments.length : ℚ)
    { gpa := pyRound2 gpa, message := none }

/-! ## Spec-side predicates

These express the spec's hypotheses ("a student with the same email already
exists", "no enrollment exists for the pair", ...) independently of the
select-then-test shape of the handlers; bridging lemmas below connect them to
the emptiness tests the code performs. -/

/-- Some stored student row has this id. -/
def hasStudent (s : Store) (student_id : Int) : Bool :=
  s.students.any (fun st => st.id == student_id)

/-- Some stored course row has this id. -/
def hasCourse (s : Store) (course_id : Int) : Bool :=
  s.courses.any (fun c => c.id == course_id)

/-- Some stored enrollment row has exactly this (student_id, course_id) pair. -/
def hasEnrollment (s : Store) (student_id course_id : Int) : Bool :=
  s.enrollments.any
    (fun e => e.student_id == student_id && e.course_id == course_id)

/-- Some stored student row has this exact (case-sensitive) email. -/
def emailTaken (s : Store) (email : String) : Bool :=
  s.students.any (fun st => st.email == email)

/-- The non-null grades among the student's enrollments, in store order. -/
def gradesOf (s : Store) (student_id : Int) : List ℚ :=
  (s.enrollments.filter (fun e => e.student_id == student_id)).filterMap
    (fun e => e.grade)

/-! ## Helper lemmas -/

theorem isEmpty_iff_nil {α : Type _} (l : List α) : l.isEmpty = true ↔ l = [] := by
  cases l <;> simp

theorem any_iff_filter_ne_nil {α : Type _} (l : List α) (p : α → Bool) :
    l.any p = true ↔ l.filter p ≠ [] := by
  induction l with
  | nil => simp
  | cons a t ih => by_cases hp : p a <;> simp [List.filter_cons, hp, ih]

theorem filter_filter_comm {α : Type _} (l : List α) (p q : α → Bool) :
    (l.filter p).filter q = l.filter (fun a => p a && q a) := by
  induction l with
  | nil => rfl
  | cons a t ih =>
    by_cases hp : p a <;> by_cases hq : q a <;>
      simp [List.filter_cons, hp, hq, ih]

theorem filterMap_grade_split (l : List Enrollment) (p : Enrollment → Bool) :
    (l.filter p).filterMap (fun e => e.grade) =
      (l.filter (fun e => p e && e.grade.isSome)).map (fun e => e.grade.getD 0) := by
  induction l with
  | nil => rfl
  | cons e t ih =>
    by_cases hp : p e
    · cases hg : e.grade <;>
        simp [List.filter_cons, List.filterMap_cons, hp, hg, ih]
    · simp [List.filter_cons, hp, ih]

theorem isEmpty_filter_eq_not_any {α : Type _} (l : List α) (p : α → Bool) :
    (l.filter p).isEmpty = !(l.any p) := by
  induction l with
  | nil => rfl
  | cons a t ih => by_cases hp : p a <;> simp [List.filter_cons, hp, ih]

theorem any_filter_not {α : Type _} (l : List α) (p : α → Bool) :
    (l.filter (fun a => !(p a))).any p = false := by
  induction l with
  | nil => rfl
  | cons a t ih => by_cases hp : p a <;> simp [List.filter_cons, hp, ih]

theorem filter_not_of_any_eq_false {α : Type _} (l : List α) (p : α → Bool)
    (h : l.any p = false) : l.filter (fun a => !(p a)) = l := by
  induction l with
  | nil => rfl
  | cons a t ih =>
    simp only [List.any_cons, Bool.or_eq_false_iff] at h
    simp [List.filter_cons, h.1, ih h.2]

theorem applyGrade_student_id (sid cid : Int) (g : ℚ) (e : Enrollment) :
    (applyGrade sid cid g e).student_id = e.student_id := by
  unfold applyGrade; split <;> rfl

theorem applyGrade_course_id (sid cid : Int) (g : ℚ) (e : Enrollment) :
    (applyGrade sid cid g e).course_id = e.course_id := by
  unfold applyGrade; split <;> rfl

/-- After the Supabase update call, the first row selected back for the pair
is the pair's row carrying the new grade (needed to model `result.data[0]`). -/
theorem head_filter_map_applyGrade (l : List Enrollment) (sid cid : Int) (g : ℚ)
    (h : l.filter (fun e => e.student_id == sid && e.course_id == cid) ≠ []) :
    ((l.map (applyGrade sid cid g)).filter
        (fun e => e.student_id == sid && e.course_id == cid)).head? =
      some ⟨sid, cid, some g⟩ := by
  induction l with
  | nil => exact absurd rfl h
  | cons e t ih =>
    by_cases hp : (e.student_id == sid && e.course_id == cid) = true
    · obtain ⟨h1, h2⟩ := Bool.and_eq_true_iff.mp hp
      have e1 : e.student_id = sid := beq_iff_eq.mp h1
      have e2 : e.course_id = cid := beq_iff_eq.mp h2
      have happ : applyGrade sid cid g e = ⟨sid, cid, some g⟩ := by
        simp [applyGrade, hp, e1, e2]
      simp [List.filter_cons, happ]
    · have happ : applyGrade sid cid g e = e := by simp [applyGrade, hp]
      have ht : t.filter (fun e => e.student_id == sid && e.course_id == cid) ≠ [] := by
        intro hn
        exact h (by simp [List.filter_cons, hp, hn])
      simpa [List.filter_cons, happ, hp] using ih ht

/-! ## Branch shapes of the state-changing handlers -/

theorem create_student_enrollments (s : Store) (name email : String) :
    (create_student s name email).2.enrollments = s.enrollments := by
  simp only [create_student]
  split <;> rfl

theorem create_course_enrollments (s : Store) (name instructor : String)
    (prerequisites : List String) :
    (create_course s name instructor prerequisites).2.enrollments =
      s.enrollments := rfl

theorem delete_student_enrollments (s : Store) (student_id : Int) :
    (delete_student s student_id).2.enrollments =
      s.enrollments.filter (fun e => !(e.student_id == student_id)) := rfl

theorem delete_course_enrollments (s : Store) (course_id : Int) :
    (delete_course s course_id).2.enrollments =
      s.enrollments.filter (fun e => !(e.course_id == course_id)) := rfl

theorem delete_enrollment_enrollments (s : Store) (student_id course_id : Int) :
    (delete_enrollment s student_id course_id).2.enrollments =
      s.enrollments.filter
        (fun e => !(e.student_id == student_id && e.course_id == course_id)) := rfl

theorem create_enrollment_cases (s : Store) (student_id course_id : Int)
    (grade : Option ℚ) :
    (create_enrollment s student_id course_id grade).2 = s ∨
    (s.enrollments.filter
        (fun e => e.student_id == student_id && e.course_id == course_id) = [] ∧
     (create_enrollment s student_id course_id grade).2 =
       { s with enrollments :=
          s.enrollments ++ [(⟨student_id, course_id, grade⟩ : Enrollment)] }) := by
  simp only [create_enrollment]
  split
  · exact Or.inl rfl
  · split
    · exact Or.inl rfl
    · split
      next h => exact Or.inr ⟨(isEmpty_iff_nil _).mp h, rfl⟩
      next h => exact Or.inl rfl

theorem update_grade_cases (s : Store) (student_id course_id : Int) (grade : ℚ) :
    (update_grade s student_id course_id grade).2 = s ∨
    (update_grade s student_id course_id grade).2 =
      { s with enrollments :=
          s.enrollments.map (applyGrade student_id course_id grade) } := by
  simp only [update_grade]
  split
  · exact Or.inl rfl
  · split <;> exact Or.inr rfl

/-- A concrete store used to exercise the theorems: two students, three
courses, student 1 enrolled in all three courses with grades 3.0, 4.0, null. -/
def demoStore : Store :=
  { students := [⟨1, "Alice", "alice@example.com"⟩, ⟨2, "Bob", "bob@example.com"⟩],
    courses := [⟨1, "Math", "Smith", []⟩, ⟨2, "Physics", "Jones", []⟩,
                ⟨3, "Chemistry", "Lee", []⟩],
    enrollments := [⟨1, 1, some 3⟩, ⟨1, 2, some 4⟩, ⟨1, 3, none⟩],
    nextStudentId := 3, nextCourseId := 4 }

/-! ## The uniqueness invariant and reachability through the handlers -/

/-- Two enrollment rows do not collide on the composite (student_id,
course_id) identity. -/
def DistinctPair (a b : Enrollment) : Prop :=
  ¬ (a.student_id = b.student_id ∧ a.course_id = b.course_id)

/-- At most one enrollment per (student_id, course_id) pair. -/
def uniquePairs (l : List Enrollment) : Prop :=
  l.Pairwise DistinctPair

/-- One state-changing request handled against the store. -/
inductive Step : Store → Store → Prop where
  | createStudent (s : Store) (name email : String) :
      Step s (create_student s name email).2
  | deleteStudent (s : Store) (student_id : Int) :
      Step s (delete_student s student_id).2
  | createCourse (s : Store) (name instructor : String)
      (prerequisites : List String) :
      Step s (create_course s name instructor prerequisites).2
  | deleteCourse (s : Store) (course_id : Int) :
      Step s (delete_course s course_id).2
  | createEnrollment (s : Store) (student_id course_id : Int)
      (grade : Option ℚ) :
      Step s (create_enrollment s student_id course_id grade).2
  | updateGrade (s : Store) (student_id course_id : Int) (grade : ℚ) :
      Step s (update_grade s student_id course_id grade).2
  | deleteEnrollment (s : Store) (student_id course_id : Int) :
      Step s (delete_enrollment s student_id course_id).2

/-- Stores reachable from the fresh deployment through the exposed
state-changing operations (the GET handlers do not change state). -/
inductive Reachable : Store → Prop where
  | init : Reachable initialStore
  | step {s t : Store} : Reachable s → Step s t → Reachable t

theorem uniquePairs_filter (l : List Enrollment) (p : Enrollment → Bool)
    (h : uniquePairs l) : uniquePairs (l.filter p) :=
  List.Pairwise.sublist (List.filter_sublist l) h

theorem uniquePairs_map_applyGrade (l : List Enrollment) (sid cid : Int)
    (g : ℚ) (h : uniquePairs l) :
    uniquePairs (l.map (applyGrade sid cid g)) := by
  rw [uniquePairs, List.pairwise_map]
  refine h.imp ?_
  intro a b hab
  simp only [DistinctPair, applyGrade_student_id, applyGrade_course_id]
  exact hab

theorem uniquePairs_append_new (l : List Enrollment) (e : Enrollment)
    (h : uniquePairs l)
    (hn : l.filter
        (fun x => x.student_id == e.student_id && x.course_id == e.course_id)
        = []) :
    uniquePairs (l ++ [e]) := by
  rw [uniquePairs, List.pairwise_append]
  refine ⟨h, List.pairwise_singleton _ _, ?_⟩
  intro a ha b hb
  have hb' : b = e := by simpa using hb
  subst hb'
  have hnm := List.filter_eq_nil_iff.mp hn a ha
  intro hcon
  exact hnm (by simp [hcon.1, hcon.2])

/-! ## Spec-side query semantics for `listEnrollments` -/

/-- The spec's equality filter for an optional key: an absent key matches
every row, a supplied key matches rows with exactly that value. -/
def matchesKey (key : Option Int) (v : Int) : Bool :=
  match key with
  | some k => v == k
  | none => true

/-- `listEnrollments` as the spec words it: the rows matching every provided
equality filter, conjunctively. -/
def listEnrollmentsSpec (s : Store) (student_id course_id : Option Int) :
    List Enrollment :=
  s.enrollments.filter
    (fun e => matchesKey student_id e.student_id &&
              matchesKey course_id e.course_id)

/-- What the code actually does to a supplied key before filtering: Python
truthiness drops a supplied value of 0 as if the key were absent. -/
def normalizeKey (key : Option Int) : Option Int :=
  match key with
  | some k => if k = 0 then none else some k
  | none => none

/-! ## Claim theorems -/

/-- C4: `createStudent` fails with ConflictError (400) when a stored student
already has the same email under case-sensitive equality, and otherwise
inserts the student and returns the new record, whose email (and name) match
the input exactly and whose id is the store-assigned identity. -/
theorem create_student_spec (s : Store) (name email : String) :
    (emailTaken s email = true →
       create_student s name email =
         (.error ⟨400, "Email already exists"⟩, s)) ∧
    (emailTaken s email = false →
       create_student s name email =
         (.ok ⟨s.nextStudentId, name, email⟩,
          { s with
            students := s.students ++ [⟨s.nextStudentId, name, email⟩],
            nextStudentId := s.nextStudentId + 1 })) := by
  constructor
  · intro h
    simp only [emailTaken] at h
    simp [create_student, isEmpty_filter_eq_not_any, h]
  · intro h
    simp only [emailTaken] at h
    simp [create_student, isEmpty_filter_eq_not_any, h]

/-- Witness for C4: in `demoStore` the email `carol@example.com` is fresh, and
creating Carol succeeds with the exact input email and the assigned id 3. -/
theorem create_student_spec_witness :
    emailTaken demoStore "carol@example.com" = false ∧
    create_student demoStore "Carol" "carol@example.com" =
      (.ok ⟨3, "Carol", "carol@example.com"⟩,
       { demoStore with
         students := demoStore.students ++ [⟨3, "Carol", "carol@example.com"⟩],
         nextStudentId := 4 }) := by
  refine ⟨by decide, ?_⟩
  rw [(create_student_spec demoStore "Carol" "carol@example.com").2 (by decide)]
  rfl

/-- C1: `calculateGpa` selects the student's enrollments whose grade is
non-null; if there are none it returns the sentinel {gpa: 0.0, message: "No
grades found"} (not an error), and otherwise the arithmetic mean of exactly
those non-null grades (null-grade enrollments excluded from numerator and
denominator alike) rounded to 2 decimal places. -/
theorem calculate_gpa_spec (s : Store) (sid : Int) :
    (gradesOf s sid = [] →
       calculate_gpa s sid = { gpa := 0, message := some "No grades found" }) ∧
    (gradesOf s sid ≠ [] →
       calculate_gpa s sid =
         { gpa := pyRound2 ((gradesOf s sid).sum / ((gradesOf s sid).length : ℚ)),
           message := none }) := by
  have hG : gradesOf s sid =
      (s.enrollments.filter (fun e => e.student_id == sid && e.grade.isSome)).map
        (fun e => e.grade.getD 0) := by
    simp [gradesOf, filterMap_grade_split]
  constructor
  · intro h
    rw [hG] at h
    have hnil := List.map_eq_nil_iff.mp h
    simp [calculate_gpa, hnil]
  · intro h
    rw [hG] at h
    have hne : s.enrollments.filter
        (fun e => e.student_id == sid && e.grade.isSome) ≠ [] := by
      intro hn
      rw [hn] at h
      exact h rfl
    rw [hG]
    simp [calculate_gpa, isEmpty_iff_nil, hne]

/-- Witness for C1: in `demoStore` student 1 has grades [3.0, 4.0, null], so
the GPA is 3.5 with no message; student 2 has no graded enrollments, so the
sentinel result is returned. -/
theorem calculate_gpa_spec_witness :
    calculate_gpa demoStore 1 = { gpa := 7 / 2, message := none } ∧
    calculate_gpa demoStore 2 = { gpa := 0, message := some "No grades found" } := by
  constructor
  · rw [(calculate_gpa_spec demoStore 1).2 (by decide)]
    have hg : gradesOf demoStore 1 = [3, 4] := by decide
    rw [hg]
    norm_num [pyRound2, roundHalfEven, Rat.floor_def', Rat.num_ofNat, Rat.den_ofNat]
  · exact (calculate_gpa_spec demoStore 2).1 (by decide)

/-- C2: `createEnrollment` fails with 404 "Student not found" whenever the
student id has no matching student (the student check comes first), with 404
"Course not found" when the student exists but the course does not, with 400
when an enrollment for the exact pair already exists, and otherwise inserts
the enrollment and returns the inserted record. -/
theorem create_enrollment_spec (s : Store) (sid cid : Int) (g : Option ℚ) :
    (hasStudent s sid = false →
       create_enrollment s sid cid g = (.error ⟨404, "Student not found"⟩, s)) ∧
    (hasStudent s sid = true → hasCourse s cid = false →
       create_enrollment s sid cid g = (.error ⟨404, "Course not found"⟩, s)) ∧
    (hasStudent s sid = true → hasCourse s cid = true →
     hasEnrollment s sid cid = true →
       create_enrollment s sid cid g =
         (.error ⟨400, "Student already enrolled in this course"⟩, s)) ∧
    (hasStudent s sid = true → hasCourse s cid = true →
     hasEnrollment s sid cid = false →
       create_enrollment s sid cid g =
         (.ok ⟨sid, cid, g⟩,
          { s with enrollments :=
              s.enrollments ++ [(⟨sid, cid, g⟩ : Enrollment)] })) := by
  refine ⟨?_, ?_, ?_, ?_⟩
  · intro h1
    simp only [hasStudent] at h1
    simp [create_enrollment, isEmpty_filter_eq_not_any, h1]
  · intro h1 h2
    simp only [hasStudent] at h1
    simp only [hasCourse] at h2
    simp [create_enrollment, isEmpty_filter_eq_not_any, h1, h2]
  · intro h1 h2 h3
    simp only [hasStudent] at h1
    simp only [hasCourse] at h2
    simp only [hasEnrollment] at h3
    simp [create_enrollment, isEmpty_filter_eq_not_any, h1, h2, h3]
  · intro h1 h2 h3
    simp only [hasStudent] at h1
    simp only [hasCourse] at h2
    simp only [hasEnrollment] at h3
    simp [create_enrollment, isEmpty_filter_eq_not_any, h1, h2, h3]

/-- Witness for C2: in `demoStore` student 2 and course 1 exist and the pair
(2, 1) is not yet enrolled, so creating it succeeds and appends the record. -/
theorem create_enrollment_spec_witness :
    hasStudent demoStore 2 = true ∧ hasCourse demoStore 1 = true ∧
    hasEnrollment demoStore 2 1 = false ∧
    create_enrollment demoStore 2 1 none =
      (.ok ⟨2, 1, none⟩,
       { demoStore with
         enrollments := demoStore.enrollments ++ [(⟨2, 1, none⟩ : Enrollment)] }) := by
  refine ⟨by decide, by decide, by decide, ?_⟩
  rw [(create_enrollment_spec demoStore 2 1 none).2.2.2 (by decide) (by decide)
    (by decide)]

/-- C7: when the student id has no matching student, `createEnrollment`
returns 404 "Student not found" and leaves the store unchanged — no
enrollment row is created on the error path, even when the course exists. -/
theorem create_enrollment_missing_student (s : Store) (sid cid : Int)
    (g : Option ℚ) (h : hasStudent s sid = false) :
    (create_enrollment s sid cid g).1 = .error ⟨404, "Student not found"⟩ ∧
    (create_enrollment s sid cid g).2 = s := by
  simp only [hasStudent] at h
  simp [create_enrollment, isEmpty_filter_eq_not_any, h]

/-- Witness for C7: student 99 does not exist in `demoStore` while course 1
does; the enrollment attempt fails and the store is untouched. -/
theorem create_enrollment_missing_student_witness :
    hasStudent demoStore 99 = false ∧ hasCourse demoStore 1 = true ∧
    ((create_enrollment demoStore 99 1 none).1 =
        .error ⟨404, "Student not found"⟩ ∧
     (create_enrollment demoStore 99 1 none).2 = demoStore) :=
  ⟨by decide, by decide,
   create_enrollment_missing_student demoStore 99 1 none (by decide)⟩

/-- C6: `updateGrade` fails with 404 when no enrollment exists for the pair,
and otherwise overwrites only the grade field of the pair's enrollment
(student_id and course_id and all other rows unchanged, per `applyGrade`) and
returns the updated record whose grade equals the input grade exactly. -/
theorem update_grade_spec (s : Store) (sid cid : Int) (g : ℚ) :
    (hasEnrollment s sid cid = false →
       update_grade s sid cid g = (.error ⟨404, "Enrollment not found"⟩, s)) ∧
    (hasEnrollment s sid cid = true →
       update_grade s sid cid g =
         (.ok ⟨sid, cid, some g⟩,
          { s with enrollments := s.enrollments.map (applyGrade sid cid g) })) := by
  constructor
  · intro h
    simp only [hasEnrollment] at h
    simp [update_grade, isEmpty_filter_eq_not_any, h]
  · intro h
    simp only [hasEnrollment] at h
    have hne : s.enrollments.filter
        (fun e => e.student_id == sid && e.course_id == cid) ≠ [] :=
      (any_iff_filter_ne_nil _ _).mp h
    have hhead := head_filter_map_applyGrade s.enrollments sid cid g hne
    simp [update_grade, isEmpty_filter_eq_not_any, h, hhead]

/-- Witness for C6: the pair (1, 2) is enrolled in `demoStore`, and updating
its grade to 3.7 returns the record with grade exactly 3.7. -/
theorem update_grade_spec_witness :
    hasEnrollment demoStore 1 2 = true ∧
    update_grade demoStore 1 2 (37 / 10) =
      (.ok ⟨1, 2, some (37 / 10)⟩,
       { demoStore with
         enrollments := demoStore.enrollments.map (applyGrade 1 2 (37 / 10)) }) :=
  ⟨by decide, (update_grade_spec demoStore 1 2 (37 / 10)).2 (by decide)⟩

/-- C9: `deleteEnrollment` always returns the success confirmation; exactly
the rows matching the pair are removed (afterwards no enrollment for the pair
remains), and when no row matches it is a no-op on the store. -/
theorem delete_enrollment_spec (s : Store) (sid cid : Int) :
    (delete_enrollment s sid cid).1 = "Enrollment deleted" ∧
    (delete_enrollment s sid cid).2.enrollments =
      s.enrollments.filter
        (fun e => !(e.student_id == sid && e.course_id == cid)) ∧
    hasEnrollment (delete_enrollment s sid cid).2 sid cid = false ∧
    (hasEnrollment s sid cid = false → (delete_enrollment s sid cid).2 = s) := by
  refine ⟨rfl, rfl, ?_, ?_⟩
  · simp only [hasEnrollment, delete_enrollment_enrollments]
    exact any_filter_not _ _
  · intro h
    simp only [hasEnrollment] at h
    simp only [delete_enrollment]
    rw [filter_not_of_any_eq_false _ _ h]

/-- Witness for C9: no enrollment (2, 3) exists in `demoStore`; deleting it
still answers the confirmation message and leaves the store unchanged. -/
theorem delete_enrollment_spec_witness :
    hasEnrollment demoStore 2 3 = false ∧
    (delete_enrollment demoStore 2 3).1 = "Enrollment deleted" ∧
    (delete_enrollment demoStore 2 3).2 = demoStore :=
  ⟨by decide, (delete_enrollment_spec demoStore 2 3).1,
   (delete_enrollment_spec demoStore 2 3).2.2.2 (by decide)⟩

/-- C5 (amended): `deleteStudent` always answers the confirmation message and
raises no error; it removes exactly the enrollments whose student_id matches
and the student rows whose id matches; and for every nonzero id a subsequent
enrollment query for that student_id returns empty.  (For id 0 the query's
filter is dropped by Python truthiness, see the counterexample.) -/
theorem delete_student_spec (s : Store) (sid : Int) :
    delete_student s sid =
      ("Student deleted",
       { s with
         enrollments := s.enrollments.filter (fun e => !(e.student_id == sid)),
         students := s.students.filter (fun st => !(st.id == sid)) }) ∧
    (sid ≠ 0 →
       get_enrollments (delete_student s sid).2 (some sid) none = []) := by
  constructor
  · rfl
  · intro h
    have hb : (sid != 0) = true := bne_iff_ne.mpr h
    simp only [get_enrollments, delete_student_enrollments]
    rw [if_pos hb, filter_filter_comm]
    simp

/-- Counterexample for C5 as stated: in `demoStore` nothing has student_id 0,
so `deleteStudent 0` removes no enrollment, yet a subsequent enrollment query
for student_id 0 returns every enrollment instead of the empty list, because
the handler drops a 0-valued filter (Python truthiness). -/
theorem delete_student_spec_cex :
    get_enrollments (delete_student demoStore 0).2 (some 0) none ≠ [] := by
  decide

/-- Witness for C5: deleting student 1 from `demoStore` empties the
enrollment query for student_id 1. -/
theorem delete_student_spec_witness :
    (1 : Int) ≠ 0 ∧
    get_enrollments (delete_student demoStore 1).2 (some 1) none = [] :=
  ⟨by decide, (delete_student_spec demoStore 1).2 (by decide)⟩

/-- Counterexample for C3 as stated: a supplied filter value of 0 is not
applied.  In `demoStore` no enrollment has student_id 0, so the spec-side
filter semantics returns [], but the handler returns all rows. -/
theorem get_enrollments_spec_cex :
    get_enrollments demoStore (some 0) none ≠
      listEnrollmentsSpec demoStore (some 0) none := by
  decide

/-- C3 (amended): `listEnrollments` returns exactly the enrollments matching
the provided equality filters, conjunctively, after supplied values of 0 are
dropped as if absent (Python truthiness); with no effective filters it
returns all rows. -/
theorem get_enrollments_amended (s : Store) (a b : Option Int) :
    get_enrollments s a b =
      listEnrollmentsSpec s (normalizeKey a) (normalizeKey b) := by
  cases a with
  | none =>
    cases b with
    | none =>
      simp [get_enrollments, listEnrollmentsSpec, normalizeKey, matchesKey]
    | some k =>
      by_cases hk : k = 0 <;>
        simp [get_enrollments, listEnrollmentsSpec, normalizeKey, matchesKey,
          hk, bne_iff_ne]
  | some j =>
    by_cases hj : j = 0
    · cases b with
      | none =>
        simp [get_enrollments, listEnrollmentsSpec, normalizeKey, matchesKey,
          hj]
      | some k =>
        by_cases hk : k = 0 <;>
          simp [get_enrollments, listEnrollmentsSpec, normalizeKey, matchesKey,
            hj, hk, bne_iff_ne]
    · cases b with
      | none =>
        simp [get_enrollments, listEnrollmentsSpec, normalizeKey, matchesKey,
          hj, bne_iff_ne]
      | some k =>
        by_cases hk : k = 0
        · simp [get_enrollments, listEnrollmentsSpec, normalizeKey, matchesKey,
            hj, hk, bne_iff_ne]
        · simp [get_enrollments, listEnrollmentsSpec, normalizeKey, matchesKey,
            hj, hk, bne_iff_ne, filter_filter_comm]
          exact List.filter_congr (fun a _ => by rw [Bool.and_comm])

/-- C10: a supplied filter value of 0 behaves exactly as an absent filter, for
either key, because the handler tests presence with Python truthiness. -/
theorem get_enrollments_zero_key (s : Store) (a b : Option Int) :
    get_enrollments s (some 0) b = get_enrollments s none b ∧
    get_enrollments s a (some 0) = get_enrollments s a none := by
  constructor
  · simp [get_enrollments]
  · cases a with
    | none => simp [get_enrollments]
    | some j => by_cases hj : j = 0 <;> simp [get_enrollments, hj]

/-- C8: every store reachable through the exposed operations has at most one
enrollment per (student_id, course_id) pair: the duplicate check in
`createEnrollment`, the key-preserving update in `updateGrade`, and the
deletes all preserve the invariant. -/
theorem enrollment_pairs_unique (s : Store) (h : Reachable s) :
    uniquePairs s.enrollments := by
  induction h with
  | init => exact List.Pairwise.nil
  | @step s' t h1 h2 ih =>
    cases h2 with
    | createStudent name email =>
      rw [create_student_enrollments]
      exact ih
    | deleteStudent sid =>
      rw [delete_student_enrollments]
      exact uniquePairs_filter _ _ ih
    | createCourse name instructor prerequisites =>
      rw [create_course_enrollments]
      exact ih
    | deleteCourse cid =>
      rw [delete_course_enrollments]
      exact uniquePairs_filter _ _ ih
    | createEnrollment sid cid g =>
      rcases create_enrollment_cases s' sid cid g with hc | ⟨hn, hc⟩
      · rw [hc]
        exact ih
      · rw [hc]
        exact uniquePairs_append_new _ _ ih hn
    | updateGrade sid cid g =>
      rcases update_grade_cases s' sid cid g with hc | hc
      · rw [hc]
        exact ih
      · rw [hc]
        exact uniquePairs_map_applyGrade _ _ _ _ ih
    | deleteEnrollment sid cid =>
      rw [delete_enrollment_enrollments]
      exact uniquePairs_filter _ _ ih

/-- Witness for C8: the store obtained by creating a student, a course and an
enrollment from the fresh deployment is reachable and satisfies the
invariant. -/
theorem enrollment_pairs_unique_witness :
    uniquePairs (create_enrollment
      (create_course (create_student initialStore "Alice" "alice@example.com").2
        "Math" "Smith" []).2 1 1 none).2.enrollments :=
  enrollment_pairs_unique _
    (Reachable.step
      (Reachable.step
        (Reachable.step Reachable.init (Step.createStudent _ _ _))
        (Step.createCourse _ _ _ _))
      (Step.createEnrollment _ _ _ _))
